import Mathlib

/-!
Verification of the configuration/builder logic of `zero/common/gpt2.py`
(ColossalAI-Benchmark).  The file's state is the shared mutable mapping
`CONFIG`; the functions modelled here are `gpt2_builder`, `build_scheduler`,
the `CONFIG` effect of `build_data`, and the `concat` branch of the inner
`tokenize` function.  Python dictionaries are embedded as association lists
with Python's semantics (first binding wins on lookup; assignment updates an
existing key in place, otherwise appends).
-/

namespace ZeroGPT2

/-- A value stored in one of the configuration dictionaries: the Python code
only ever stores ints, floats, strings and booleans there. -/
inductive Val where
  | vNat : Nat → Val
  | vRat : ℚ → Val
  | vStr : String → Val
  | vBool : Bool → Val
deriving DecidableEq, Repr

/-- A Python dict keyed by strings, as an association list in insertion
order. -/
abbrev Dict := List (String × Val)

/-- Python dict lookup `d[k]` / `d.get(k)`: the first binding of `k`. -/
def alookup {α : Type} : List (String × α) → String → Option α
  | [], _ => none
  | (k1, v) :: rest, k => if k1 = k then some v else alookup rest k

/-- Python dict assignment `d[k] = v`: an existing key keeps its position and
gets the new value; a fresh key is appended at the end. -/
def aset {α : Type} : List (String × α) → String → α → List (String × α)
  | [], k, v => [(k, v)]
  | (k1, w) :: tl, k, v =>
    if k1 = k then (k, v) :: tl else (k1, w) :: aset tl k v

/-- The merge loop of `gpt2_builder`:
`for k, v in defaults.items(): if k not in d: d[k] = v`. -/
def mergeAbsent (base defaults : Dict) : Dict :=
  defaults.foldl
    (fun d kv => if (alookup d kv.1).isSome then d else aset d kv.1 kv.2)
    base

/-- `_gpt2_small` from the source, in the dict literal's order. -/
def gpt2_small : Dict :=
  [("seq_length", .vNat 1024),
   ("vocab_size", .vNat 50257),
   ("hidden_size", .vNat 768),
   ("num_heads", .vNat 12),
   ("depth", .vNat 12),
   ("checkpoint", .vBool false),
   ("evaluation", .vStr "ppl")]

/-- `_gpt2_xl` from the source. -/
def gpt2_xl : Dict :=
  [("seq_length", .vNat 1024),
   ("vocab_size", .vNat 50257),
   ("hidden_size", .vNat 1600),
   ("num_heads", .vNat 25),
   ("depth", .vNat 48),
   ("checkpoint", .vBool true),
   ("evaluation", .vStr "ppl")]

/-- `_gpt2_10b` from the source. -/
def gpt2_10b : Dict :=
  [("seq_length", .vNat 1024),
   ("vocab_size", .vNat 50257),
   ("hidden_size", .vNat 4096),
   ("num_heads", .vNat 16),
   ("depth", .vNat 50),
   ("checkpoint", .vBool true),
   ("evaluation", .vStr "ppl")]

/-- `_gpt2_configurations`: the table of known model-size presets. -/
def gpt2_configs : List (String × Dict) :=
  [("gpt2", gpt2_small),
   ("gpt2_small", gpt2_small),
   ("gpt2_xl", gpt2_xl),
   ("gpt2_10b", gpt2_10b)]

/-- `_default_hyperparameters` from the source. -/
def default_hyperparameters : Dict :=
  [("tokenize_mode", .vStr "concat"),
   ("batch_size", .vNat 4),
   ("learning_rate", .vRat (3 / 20000)),
   ("weight_decay", .vRat (1 / 100)),
   ("num_epochs", .vNat 2),
   ("warmup_epochs", .vNat 1),
   ("steps_per_epoch", .vNat 100)]

/-- The shared `CONFIG` mapping, restricted to the four top-level keys the
file reads or writes: `model`, `hyperparameter`, `dataset`, `tokenizer`.
`model` is present whenever `gpt2_builder` is entered (its first line indexes
into it); the other three may be absent, hence `Option`. -/
structure Config where
  model : Dict
  hyperparameter : Option Dict
  dataset : Option String
  tokenizer : Option String
deriving DecidableEq, Repr

/-- The two environment variables the builder reads (`os.environ` raises
`KeyError` when one is unset, hence `Option`). -/
structure Env where
  DATA : Option String
  TOKENIZER : Option String
deriving DecidableEq, Repr

/-- The Python exceptions the modelled code can raise. -/
inductive PyError where
  | KeyError : String → PyError
  | TypeError : String → PyError
deriving DecidableEq, Repr

/-- `model_type in _gpt2_configurations` followed by the table lookup: only a
string key can be a member of the preset table. -/
def presetFor : Val → Option Dict
  | .vStr s => alookup gpt2_configs s
  | _ => none

/-- The names of the five builder functions `gpt2_builder` returns. -/
def gpt2_builder_ret : List String :=
  ["build_data", "build_model", "build_loss", "build_optimizer",
   "build_scheduler"]

/-- `gpt2_builder`: merges the preset for `CONFIG['model']['type']` into
`CONFIG['model']` (absent keys only), merges the default hyperparameters into
`CONFIG['hyperparameter']` (creating the section if absent), then assigns
`CONFIG['dataset'] = os.environ['DATA']` and
`CONFIG['tokenizer'] = os.environ['TOKENIZER']` and returns the five builder
functions.  The result pairs the final `CONFIG` state (also on failure, since
the Python code mutates the global in place before raising) with either the
raised exception or the returned function names. -/
def gpt2_builder (env : Env) (c : Config) :
    Config × Except PyError (List String) :=
  match alookup c.model "type" with
  | none => (c, .error (.KeyError "type"))
  | some mt =>
    let c1 : Config :=
      match presetFor mt with
      | some preset => { c with model := mergeAbsent c.model preset }
      | none => c
    let c2 : Config :=
      match c1.hyperparameter with
      | some h =>
        { c1 with hyperparameter := some (mergeAbsent h default_hyperparameters) }
      | none => { c1 with hyperparameter := some default_hyperparameters }
    match env.DATA with
    | none => (c2, .error (.KeyError "DATA"))
    | some d =>
      let c3 : Config := { c2 with dataset := some d }
      match env.TOKENIZER with
      | none => (c3, .error (.KeyError "TOKENIZER"))
      | some t =>
        ({ c3 with tokenizer := some t }, .ok gpt2_builder_ret)

/-- A Python int read out of a `Val` (the hyperparameter epoch counts are
ints in the source). -/
def Val.toInt : Val → Option Int
  | .vNat n => some (n : Int)
  | _ => none

/-- The two arguments `build_scheduler` passes to
`get_cosine_schedule_with_warmup`. -/
structure SchedulerSpec where
  num_warmup_steps : Int
  num_training_steps : Int
deriving DecidableEq, Repr

/-- `build_scheduler`: computes `max_steps = epoch_steps * num_epochs` and
`warmup_steps = epoch_steps * warmup_epochs` from `CONFIG['hyperparameter']`
and hands them to the external cosine-warmup schedule constructor, which is
abstracted to the pair of arguments it receives. -/
def build_scheduler (c : Config) (epoch_steps : Int) :
    Except PyError SchedulerSpec :=
  match c.hyperparameter with
  | none => .error (.KeyError "hyperparameter")
  | some h =>
    match alookup h "num_epochs" with
    | none => .error (.KeyError "num_epochs")
    | some nv =>
      match Val.toInt nv with
      | none => .error (.TypeError "num_epochs")
      | some n =>
        match alookup h "warmup_epochs" with
        | none => .error (.KeyError "warmup_epochs")
        | some wv =>
          match Val.toInt wv with
          | none => .error (.TypeError "warmup_epochs")
          | some w =>
            .ok { num_warmup_steps := epoch_steps * w
                  num_training_steps := epoch_steps * n }

/-- The `CONFIG` effect of `build_data`: after reading `CONFIG['dataset']`,
`CONFIG['tokenizer']` and `CONFIG['hyperparameter']['tokenize_mode']` (each a
`KeyError` when absent), its single write is
`CONFIG['model']['vocab_size'] = len(tokenizer)`.  The external library work
(dataset loading, tokenizer construction, `dataset.map`, the data loaders) is
abstracted away; `tokenizer_len` stands for `len(tokenizer)`. -/
def build_data_config (tokenizer_len : Nat) (c : Config) :
    Except PyError Config :=
  match c.dataset with
  | none => .error (.KeyError "dataset")
  | some _ =>
    match c.tokenizer with
    | none => .error (.KeyError "tokenizer")
    | some _ =>
      match c.hyperparameter with
      | none => .error (.KeyError "hyperparameter")
      | some h =>
        match alookup h "tokenize_mode" with
        | none => .error (.KeyError "tokenize_mode")
        | some _ =>
          .ok { c with model := aset c.model "vocab_size" (.vNat tokenizer_len) }

/-- Python `range(0, stop, step)` for `step > 0`: the multiples of `step`
below `stop`.  (Python raises `ValueError` for `step = 0`; that case is never
reached here since callers use a positive sequence length.) -/
def rangeStep (stop step : Nat) : List Nat :=
  if step = 0 then []
  else (List.range ((stop + step - 1) / step)).map (fun j => j * step)

/-- The `concat` branch of the inner `tokenize` function of `build_data`, on
one concatenated token stream: compute `total_length`, round it down to a
multiple of `seq_len` when it is at least `seq_len`, then slice
`t[i:i + seq_len]` for `i in range(0, total_length, seq_len)`. -/
def tokenize_concat {α : Type} (seq_len : Nat) (tokens : List α) :
    List (List α) :=
  let tl0 := tokens.length
  let tl := if tl0 ≥ seq_len then (tl0 / seq_len) * seq_len else tl0
  (rangeStep tl seq_len).map (fun i => (tokens.drop i).take seq_len)

/-- `CONFIG['hyperparameter'][k]`: lookup through the optional section. -/
def hlookup (c : Config) (k : String) : Option Val :=
  c.hyperparameter.bind (fun h => alookup h k)

/-- Whether a builder result is a raised `KeyError`. -/
def isKeyError : Except PyError (List String) → Bool
  | .error (.KeyError _) => true
  | _ => false

/-- A sample starting configuration for concrete evaluations: known model
size, one preset key and one hyperparameter already set by the user. -/
def cW : Config :=
  { model := [("type", .vStr "gpt2"), ("hidden_size", .vNat 96)]
    hyperparameter := some [("batch_size", .vNat 8)]
    dataset := none
    tokenizer := none }

/-- A sample starting configuration with an unknown model-size name. -/
def cU : Config :=
  { model := [("type", .vStr "gpt3"), ("hidden_size", .vNat 96)]
    hyperparameter := none
    dataset := none
    tokenizer := none }

/-- A sample configuration with a dataset path already set, for observing
the unconditional overwrite of `CONFIG['dataset']`. -/
def cO : Config :=
  { model := [("type", .vStr "gpt2")]
    hyperparameter := none
    dataset := some "old_path"
    tokenizer := none }

/-- A sample configuration ready for `build_data` / `build_scheduler`. -/
def cD : Config :=
  { model := [("type", .vStr "gpt2"), ("vocab_size", .vNat 50257)]
    hyperparameter := some default_hyperparameters
    dataset := some "/data/wiki"
    tokenizer := some "/data/tok" }

/-- An environment with both variables set. -/
def envW : Env := { DATA := some "/data/wiki", TOKENIZER := some "/data/tok" }

/-- An environment with `DATA` unset. -/
def envN : Env := { DATA := none, TOKENIZER := some "/data/tok" }

/-! ## Dictionary lemmas -/

theorem alookup_aset_self {α : Type} (d : List (String × α)) (k : String)
    (v : α) : alookup (aset d k v) k = some v := by
  induction d with
  | nil => simp [aset, alookup]
  | cons kv tl ih =>
    obtain ⟨k1, w⟩ := kv
    by_cases hk : k1 = k
    · subst hk
      simp [aset, alookup]
    · simp [aset, alookup, hk, ih]

theorem alookup_aset_ne {α : Type} (d : List (String × α)) (k k1 : String)
    (v : α) (h : k1 ≠ k) : alookup (aset d k v) k1 = alookup d k1 := by
  have hne : ¬ k = k1 := fun hc => h hc.symm
  induction d with
  | nil => simp [aset, alookup, hne]
  | cons kv tl ih =>
    obtain ⟨k2, w⟩ := kv
    by_cases hk : k2 = k
    · subst hk
      simp [aset, alookup, hne]
    · simp [aset, alookup, hk, ih]

theorem alookup_mergeAbsent_of_present (defs : Dict) :
    ∀ (base : Dict) (k : String) (v : Val), alookup base k = some v →
      alookup (mergeAbsent base defs) k = some v := by
  induction defs with
  | nil => intro base k v h; simpa [mergeAbsent]
  | cons kv rest ih =>
    intro base k v h
    obtain ⟨k1, v1⟩ := kv
    show alookup (mergeAbsent (if (alookup base k1).isSome then base
      else aset base k1 v1) rest) k = some v
    by_cases hp : (alookup base k1).isSome = true
    · rw [if_pos hp]
      exact ih base k v h
    · rw [if_neg hp]
      by_cases hk : k1 = k
      · subst hk
        simp [h] at hp
      · exact ih _ k v
          (by rw [alookup_aset_ne base k1 k v1 (fun hc => hk hc.symm)]; exact h)

theorem alookup_mergeAbsent_of_absent (defs : Dict) :
    ∀ (base : Dict) (k : String), alookup base k = none →
      alookup (mergeAbsent base defs) k = alookup defs k := by
  induction defs with
  | nil => intro base k h; simpa [mergeAbsent, alookup]
  | cons kv rest ih =>
    intro base k h
    obtain ⟨k1, v1⟩ := kv
    show alookup (mergeAbsent (if (alookup base k1).isSome then base
      else aset base k1 v1) rest) k = alookup ((k1, v1) :: rest) k
    by_cases hp : (alookup base k1).isSome = true
    · by_cases hk : k1 = k
      · subst hk
        simp [h] at hp
      · rw [if_pos hp]
        show alookup (mergeAbsent base rest) k =
          if k1 = k then some v1 else alookup rest k
        rw [if_neg hk]
        exact ih base k h
    · rw [if_neg hp]
      by_cases hk : k1 = k
      · subst hk
        have hs := alookup_aset_self base k1 v1
        show alookup (mergeAbsent (aset base k1 v1) rest) k1 =
          if k1 = k1 then some v1 else alookup rest k1
        rw [if_pos rfl]
        exact alookup_mergeAbsent_of_present rest _ k1 v1 hs
      · have ha : alookup (aset base k1 v1) k = none := by
          rw [alookup_aset_ne base k1 k v1 (fun hc => hk hc.symm)]; exact h
        show alookup (mergeAbsent (aset base k1 v1) rest) k =
          if k1 = k then some v1 else alookup rest k
        rw [if_neg hk]
        exact ih _ k ha

theorem alookup_isSome_of_mem {α : Type} (d : List (String × α))
    (k : String) (v : α) (h : (k, v) ∈ d) : (alookup d k).isSome := by
  induction d with
  | nil => simp at h
  | cons kv tl ih =>
    obtain ⟨k1, w⟩ := kv
    rcases List.mem_cons.mp h with h1 | h1
    · injection h1 with a b
      subst a
      simp [alookup]
    · by_cases hk : k1 = k
      · simp [alookup, hk]
      · simpa [alookup, hk] using ih h1

theorem mergeAbsent_all_present (defs : Dict) :
    ∀ (base : Dict), (∀ kv ∈ defs, (alookup base kv.1).isSome) →
      mergeAbsent base defs = base := by
  induction defs with
  | nil => intro base _; rfl
  | cons kv rest ih =>
    intro base h
    obtain ⟨k1, v1⟩ := kv
    have hp : (alookup base k1).isSome := h (k1, v1) (List.mem_cons_self _ _)
    show mergeAbsent (if (alookup base k1).isSome then base
      else aset base k1 v1) rest = base
    rw [if_pos hp]
    exact ih base (fun kv hm => h kv (List.mem_cons_of_mem _ hm))

theorem mergeAbsent_isSome_of_mem (base defs : Dict) (k : String) (v : Val)
    (h : (k, v) ∈ defs) : (alookup (mergeAbsent base defs) k).isSome := by
  cases hb : alookup base k with
  | some w =>
    rw [alookup_mergeAbsent_of_present defs base k w hb]; rfl
  | none =>
    rw [alookup_mergeAbsent_of_absent defs base k hb]
    exact alookup_isSome_of_mem defs k v h

theorem mergeAbsent_idem (base defs : Dict) :
    mergeAbsent (mergeAbsent base defs) defs = mergeAbsent base defs :=
  mergeAbsent_all_present defs _
    (fun kv hm => mergeAbsent_isSome_of_mem base defs kv.1 kv.2 hm)

/-! ## Characterization of `gpt2_builder` -/

/-- The `CONFIG` state `gpt2_builder` leaves behind (also when it raises
while reading the environment), as a function of the four sections. -/
theorem gpt2_builder_state (env : Env) (c : Config) (mt : Val)
    (hty : alookup c.model "type" = some mt) :
    (gpt2_builder env c).1 =
      { model := match presetFor mt with
          | some preset => mergeAbsent c.model preset
          | none => c.model
        hyperparameter := some (match c.hyperparameter with
          | some h0 => mergeAbsent h0 default_hyperparameters
          | none => default_hyperparameters)
        dataset := match env.DATA with
          | none => c.dataset
          | some d => some d
        tokenizer := match env.DATA, env.TOKENIZER with
          | some _, some t => some t
          | _, _ => c.tokenizer } := by
  obtain ⟨m, hy, ds, tk⟩ := c
  obtain ⟨dta, tok⟩ := env
  unfold gpt2_builder
  rw [hty]
  cases hpf : presetFor mt <;> cases hy <;> cases dta <;> cases tok <;>
    simp [hpf]

/-- The value `gpt2_builder` returns: the five builder functions on success,
a `KeyError` for the first unset environment variable otherwise. -/
theorem gpt2_builder_res (env : Env) (c : Config) (mt : Val)
    (hty : alookup c.model "type" = some mt) :
    (gpt2_builder env c).2 =
      match env.DATA, env.TOKENIZER with
      | none, _ => .error (.KeyError "DATA")
      | some _, none => .error (.KeyError "TOKENIZER")
      | some _, some _ => .ok gpt2_builder_ret := by
  obtain ⟨m, hy, ds, tk⟩ := c
  obtain ⟨dta, tok⟩ := env
  unfold gpt2_builder
  rw [hty]
  cases hpf : presetFor mt <;> cases hy <;> cases dta <;> cases tok <;>
    simp [hpf]

/-! ## Claims -/

/-- C1: for a model-size name that is one of the known presets stored under
`CONFIG['model']['type']`, after `gpt2_builder` runs every key of that preset
is present in `CONFIG['model']`; a key already present before the call keeps
its prior value, and an absent key gets the preset's value. -/
theorem C1_preset_keys_merged (env : Env) (c : Config) (name : String)
    (preset : Dict)
    (hty : alookup c.model "type" = some (.vStr name))
    (hp : alookup gpt2_configs name = some preset)
    (k : String) (v : Val) (hk : alookup preset k = some v) :
    (alookup ((gpt2_builder env c).1.model) k).isSome = true ∧
    (alookup c.model k = none →
      alookup ((gpt2_builder env c).1.model) k = some v) ∧
    (∀ w, alookup c.model k = some w →
      alookup ((gpt2_builder env c).1.model) k = some w) := by
  have hst := gpt2_builder_state env c (.vStr name) hty
  have hpf : presetFor (.vStr name) = some preset := hp
  rw [hst]
  simp only [hpf]
  refine ⟨?_, ?_, ?_⟩
  · cases hb : alookup c.model k with
    | some w =>
      rw [alookup_mergeAbsent_of_present preset c.model k w hb]; rfl
    | none =>
      rw [alookup_mergeAbsent_of_absent preset c.model k hb, hk]; rfl
  · intro hb
    rw [alookup_mergeAbsent_of_absent preset c.model k hb, hk]
  · intro w hb
    exact alookup_mergeAbsent_of_present preset c.model k w hb

/-- C1 witness: on `cW` (type `gpt2`), the absent preset key `depth` gets
the preset value 12. -/
theorem C1_preset_keys_merged_witness :
    alookup ((gpt2_builder envW cW).1.model) "depth" = some (.vNat 12) :=
  (C1_preset_keys_merged envW cW "gpt2" gpt2_small rfl rfl "depth"
    (.vNat 12) rfl).2.1 rfl

/-- C2 counterexample: `gpt2_builder` overwrites the already-set top-level
key `dataset` with the environment value, contradicting "never overwrites an
already-set key" for the keys `dataset` and `tokenizer`. -/
theorem C2_overwrite_counterexample :
    cO.dataset = some "old_path" ∧
    (gpt2_builder envW cO).1.dataset = some "/data/wiki" ∧
    some "old_path" ≠ some "/data/wiki" := by
  refine ⟨rfl, rfl, by decide⟩

/-- C2 (amended): `gpt2_builder` never overwrites an already-set key of
`CONFIG['model']` or `CONFIG['hyperparameter']`, but it sets the top-level
keys `dataset` and `tokenizer` unconditionally from the environment,
overwriting any prior values. -/
theorem C2_no_overwrite_model_hyper (env : Env) (c : Config) (mt : Val)
    (hty : alookup c.model "type" = some mt) :
    (∀ k w, alookup c.model k = some w →
      alookup ((gpt2_builder env c).1.model) k = some w) ∧
    (∀ h0 k w, c.hyperparameter = some h0 → alookup h0 k = some w →
      hlookup (gpt2_builder env c).1 k = some w) ∧
    (∀ d, env.DATA = some d → (gpt2_builder env c).1.dataset = some d) ∧
    (∀ d t, env.DATA = some d → env.TOKENIZER = some t →
      (gpt2_builder env c).1.tokenizer = some t) := by
  have hst := gpt2_builder_state env c mt hty
  rw [hst]
  refine ⟨?_, ?_, ?_, ?_⟩
  · intro k w hb
    cases hpf : presetFor mt with
    | some preset =>
      simp only [hpf]
      exact alookup_mergeAbsent_of_present preset c.model k w hb
    | none => simpa only [hpf] using hb
  · intro h0 k w hh hb
    simp only [hlookup, hh, Option.bind]
    exact alookup_mergeAbsent_of_present default_hyperparameters h0 k w hb
  · intro d hd
    simp only [hd]
  · intro d t hd ht
    simp only [hd, ht]

/-- C2 witness: on `cW`, the pre-set model key `hidden_size` and
hyperparameter key `batch_size` keep their prior values, and `dataset` gets
the environment value. -/
theorem C2_no_overwrite_model_hyper_witness :
    alookup ((gpt2_builder envW cW).1.model) "hidden_size" =
      some (.vNat 96) ∧
    hlookup (gpt2_builder envW cW).1 "batch_size" = some (.vNat 8) ∧
    (gpt2_builder envW cW).1.dataset = some "/data/wiki" := by
  have h := C2_no_overwrite_model_hyper envW cW (.vStr "gpt2") rfl
  exact ⟨h.1 "hidden_size" (.vNat 96) rfl,
    h.2.1 [("batch_size", .vNat 8)] "batch_size" (.vNat 8) rfl rfl,
    h.2.2.1 "/data/wiki" rfl⟩

/-- C3: for a model-size name that is not one of the known presets,
`gpt2_builder` leaves `CONFIG['model']` entirely unchanged. -/
theorem C3_unknown_type_model_unchanged (env : Env) (c : Config)
    (name : String)
    (hty : alookup c.model "type" = some (.vStr name))
    (hunk : alookup gpt2_configs name = none) :
    (gpt2_builder env c).1.model = c.model := by
  have hst := gpt2_builder_state env c (.vStr name) hty
  have hpf : presetFor (.vStr name) = none := hunk
  rw [hst]
  simp only [hpf]

/-- C3 witness: on `cU` (type `gpt3`, unknown), the model section is
unchanged. -/
theorem C3_unknown_type_model_unchanged_witness :
    (gpt2_builder envW cU).1.model = cU.model :=
  C3_unknown_type_model_unchanged envW cU "gpt3" rfl rfl

/-- C4: after `gpt2_builder` runs, every default hyperparameter key is
present in `CONFIG['hyperparameter']`; a key already present keeps its prior
value, an absent key gets the default value, and if the section itself was
absent it becomes exactly the full default record. -/
theorem C4_hyper_defaults_filled (env : Env) (c : Config) (mt : Val)
    (hty : alookup c.model "type" = some mt) :
    (∀ k v, alookup default_hyperparameters k = some v →
      (hlookup (gpt2_builder env c).1 k).isSome = true ∧
      (∀ h0, c.hyperparameter = some h0 →
        (alookup h0 k = none → hlookup (gpt2_builder env c).1 k = some v) ∧
        (∀ w, alookup h0 k = some w →
          hlookup (gpt2_builder env c).1 k = some w))) ∧
    (c.hyperparameter = none →
      (gpt2_builder env c).1.hyperparameter = some default_hyperparameters) := by
  have hst := gpt2_builder_state env c mt hty
  rw [hst]
  cases hh : c.hyperparameter with
  | none =>
    refine ⟨?_, fun _ => rfl⟩
    intro k v hk
    refine ⟨?_, ?_⟩
    · simp only [hlookup, Option.bind, hk]; rfl
    · intro h0 hc
      exact absurd hc (by simp)
  | some h0 =>
    refine ⟨?_, fun hc => by simp at hc⟩
    intro k v hk
    refine ⟨?_, ?_⟩
    · simp only [hlookup, Option.bind]
      cases hb : alookup h0 k with
      | some w =>
        rw [alookup_mergeAbsent_of_present default_hyperparameters h0 k w hb]
        rfl
      | none =>
        rw [alookup_mergeAbsent_of_absent default_hyperparameters h0 k hb, hk]
        rfl
    · intro h1 hc
      injection hc with hc1
      subst hc1
      refine ⟨?_, ?_⟩
      · intro hb
        simp only [hlookup, Option.bind]
        rw [alookup_mergeAbsent_of_absent default_hyperparameters h0 k hb, hk]
      · intro w hb
        simp only [hlookup, Option.bind]
        exact alookup_mergeAbsent_of_present default_hyperparameters h0 k w hb

/-- C4 witness: on `cW`, the pre-set key `batch_size` keeps 8, the absent key
`num_epochs` gets the default 2; on `cO` (no hyperparameter section) the
section becomes exactly the defaults. -/
theorem C4_hyper_defaults_filled_witness :
    hlookup (gpt2_builder envW cW).1 "batch_size" = some (.vNat 8) ∧
    hlookup (gpt2_builder envW cW).1 "num_epochs" = some (.vNat 2) ∧
    (gpt2_builder envW cO).1.hyperparameter = some default_hyperparameters := by
  have h1 := C4_hyper_defaults_filled envW cW (.vStr "gpt2") rfl
  have h2 := C4_hyper_defaults_filled envW cO (.vStr "gpt2") rfl
  refine ⟨?_, ?_, h2.2 rfl⟩
  · exact (((h1.1 "batch_size" (.vNat 4) rfl).2 [("batch_size", .vNat 8)]
      rfl).2 (.vNat 8) rfl)
  · exact (((h1.1 "num_epochs" (.vNat 2) rfl).2 [("batch_size", .vNat 8)]
      rfl).1 rfl)

/-- C5: if `DATA` or `TOKENIZER` is unset, `gpt2_builder` raises a
missing-key error instead of returning the builder functions, and it does
not set both of the keys `dataset` and `tokenizer` (at least one is left
with its prior value). -/
theorem C5_missing_env_fails (env : Env) (c : Config)
    (h : env.DATA = none ∨ env.TOKENIZER = none) :
    isKeyError (gpt2_builder env c).2 = true ∧
    ((gpt2_builder env c).1.dataset = c.dataset ∨
      (gpt2_builder env c).1.tokenizer = c.tokenizer) := by
  cases hty : alookup c.model "type" with
  | none =>
    obtain ⟨m, hy, ds, tk⟩ := c
    constructor
    · show isKeyError (gpt2_builder env ⟨m, hy, ds, tk⟩).2 = true
      unfold gpt2_builder
      rw [hty]
      rfl
    · left
      show (gpt2_builder env ⟨m, hy, ds, tk⟩).1.dataset = ds
      unfold gpt2_builder
      rw [hty]
  | some mt =>
    have hst := gpt2_builder_state env c mt hty
    have hres := gpt2_builder_res env c mt hty
    rcases h with h | h
    · rw [hst, hres]
      simp only [h]
      exact ⟨by rfl, Or.inl (by trivial)⟩
    · rw [hst, hres]
      cases hd : env.DATA with
      | none => exact ⟨by rfl, Or.inl (by trivial)⟩
      | some d =>
        simp only [h, hd]
        exact ⟨by rfl, Or.inr (by trivial)⟩

/-- C5 witness: with `DATA` unset, `gpt2_builder` on `cW` raises a
`KeyError` and leaves `tokenizer` (and here also `dataset`) untouched. -/
theorem C5_missing_env_fails_witness :
    isKeyError (gpt2_builder envN cW).2 = true ∧
    ((gpt2_builder envN cW).1.dataset = cW.dataset ∨
      (gpt2_builder envN cW).1.tokenizer = cW.tokenizer) :=
  C5_missing_env_fails envN cW (Or.inl rfl)

/-- C6: with both `DATA` and `TOKENIZER` set, `gpt2_builder` completes with
`CONFIG['dataset']` and `CONFIG['tokenizer']` equal to the environment
values and returns the five builder functions. -/
theorem C6_env_set_success (env : Env) (c : Config) (mt : Val)
    (d t : String)
    (hty : alookup c.model "type" = some mt)
    (hd : env.DATA = some d) (ht : env.TOKENIZER = some t) :
    (gpt2_builder env c).1.dataset = some d ∧
    (gpt2_builder env c).1.tokenizer = some t ∧
    (gpt2_builder env c).2 = .ok ["build_data", "build_model", "build_loss",
      "build_optimizer", "build_scheduler"] := by
  have hst := gpt2_builder_state env c mt hty
  have hres := gpt2_builder_res env c mt hty
  rw [hst, hres]
  simp only [hd, ht]
  exact ⟨by trivial, by trivial, by rfl⟩

/-- C6 witness: on `cW` with `envW`, the paths land in the configuration and
the five builders are returned. -/
theorem C6_env_set_success_witness :
    (gpt2_builder envW cW).1.dataset = some "/data/wiki" ∧
    (gpt2_builder envW cW).1.tokenizer = some "/data/tok" ∧
    (gpt2_builder envW cW).2 = .ok ["build_data", "build_model",
      "build_loss", "build_optimizer", "build_scheduler"] :=
  C6_env_set_success envW cW (.vStr "gpt2") "/data/wiki" "/data/tok"
    rfl rfl rfl

/-- C7: `build_scheduler` constructs the cosine-warmup schedule with
`num_warmup_steps = epoch_steps * warmup_epochs` and
`num_training_steps = epoch_steps * num_epochs`. -/
theorem C7_scheduler_steps (c : Config) (epoch_steps : Int) (h0 : Dict)
    (nv wv : Val) (n w : Int)
    (hh : c.hyperparameter = some h0)
    (hn : alookup h0 "num_epochs" = some nv) (hnv : Val.toInt nv = some n)
    (hw : alookup h0 "warmup_epochs" = some wv)
    (hwv : Val.toInt wv = some w) :
    build_scheduler c epoch_steps =
      .ok { num_warmup_steps := epoch_steps * w
            num_training_steps := epoch_steps * n } := by
  simp only [build_scheduler, hh, hn, hnv, hw, hwv]

/-- C7 witness: on `cD` (default hyperparameters: 2 epochs, 1 warmup epoch)
with 100 steps per epoch, warmup is 100 steps and training 200 steps. -/
theorem C7_scheduler_steps_witness :
    build_scheduler cD 100 =
      .ok { num_warmup_steps := 100, num_training_steps := 200 } :=
  C7_scheduler_steps cD 100 default_hyperparameters (.vNat 2) (.vNat 1)
    2 1 rfl rfl rfl rfl rfl

theorem mergeAbsent_self (d : Dict) : mergeAbsent d d = d := by
  refine mergeAbsent_all_present d d ?_
  rintro ⟨k, v⟩ hm
  exact alookup_isSome_of_mem d k v hm

/-- C8: with the environment fixed, `gpt2_builder` is idempotent on the
configuration: a second run leaves `CONFIG` exactly as the first run left
it, for every starting configuration containing `CONFIG['model']['type']`. -/
theorem C8_builder_idempotent (env : Env) (c : Config)
    (hty : (alookup c.model "type").isSome = true) :
    (gpt2_builder env (gpt2_builder env c).1).1 = (gpt2_builder env c).1 := by
  obtain ⟨mt, hmt⟩ := Option.isSome_iff_exists.mp hty
  have h1 := gpt2_builder_state env c mt hmt
  have hM : alookup ((gpt2_builder env c).1.model) "type" = some mt := by
    rw [h1]
    cases hpf : presetFor mt with
    | none => simpa only [hpf] using hmt
    | some p =>
      simp only [hpf]
      exact alookup_mergeAbsent_of_present p c.model "type" mt hmt
  have h2 := gpt2_builder_state env (gpt2_builder env c).1 mt hM
  rw [h2, h1]
  obtain ⟨dta, tok⟩ := env
  cases hpf : presetFor mt <;> cases hh : c.hyperparameter <;>
    cases dta <;> cases tok <;>
      simp [hpf, mergeAbsent_idem, mergeAbsent_self]

/-- C8 witness: a second run on the result of the first run over `cW` is a
no-op. -/
theorem C8_builder_idempotent_witness :
    (gpt2_builder envW (gpt2_builder envW cW).1).1 =
      (gpt2_builder envW cW).1 :=
  C8_builder_idempotent envW cW rfl

/-- C9: `build_data` unconditionally overwrites
`CONFIG['model']['vocab_size']` with the loaded tokenizer's vocabulary size,
replacing any previously present value, while leaving every other key of
`CONFIG['model']` unchanged. -/
theorem C9_vocab_size_overwritten (tok_len : Nat) (c : Config) (h0 : Dict)
    (hd : c.dataset.isSome = true) (htk : c.tokenizer.isSome = true)
    (hh : c.hyperparameter = some h0)
    (hm : (alookup h0 "tokenize_mode").isSome = true) :
    build_data_config tok_len c =
      .ok { c with model := aset c.model "vocab_size" (.vNat tok_len) } ∧
    alookup (aset c.model "vocab_size" (.vNat tok_len)) "vocab_size" =
      some (.vNat tok_len) ∧
    (∀ k, k ≠ "vocab_size" →
      alookup (aset c.model "vocab_size" (.vNat tok_len)) k =
        alookup c.model k) := by
  obtain ⟨ds, hds⟩ := Option.isSome_iff_exists.mp hd
  obtain ⟨tk, htks⟩ := Option.isSome_iff_exists.mp htk
  obtain ⟨mv, hmv⟩ := Option.isSome_iff_exists.mp hm
  refine ⟨?_, alookup_aset_self _ _ _, fun k hk => alookup_aset_ne _ _ _ _ hk⟩
  simp only [build_data_config, hds, htks, hh, hmv]

/-- C9 witness: on `cD` (which carries the preset value 50257), the value is
replaced by the tokenizer length 1000 and the key `type` is untouched. -/
theorem C9_vocab_size_overwritten_witness :
    build_data_config 1000 cD =
      .ok { cD with model := aset cD.model "vocab_size" (.vNat 1000) } ∧
    alookup (aset cD.model "vocab_size" (.vNat 1000)) "vocab_size" =
      some (.vNat 1000) ∧
    alookup (aset cD.model "vocab_size" (.vNat 1000)) "type" =
      alookup cD.model "type" := by
  have h := C9_vocab_size_overwritten 1000 cD default_hyperparameters
    rfl rfl rfl rfl
  exact ⟨h.1, h.2.1, h.2.2 "type" (by decide)⟩

/-! ## Chunking lemmas for the `concat` tokenization mode -/

theorem rangeStep_eq (stop step : Nat) (h : 0 < step) :
    rangeStep stop step =
      (List.range ((stop + step - 1) / step)).map (fun j => j * step) := by
  unfold rangeStep
  rw [if_neg (Nat.pos_iff_ne_zero.mp h)]

theorem ceil_div_mul (m s : Nat) (hs : 0 < s) :
    (m * s + s - 1) / s = m := by
  have h1 : m * s + s - 1 = (s - 1) + m * s := by omega
  rw [h1, Nat.add_mul_div_right _ _ hs, Nat.div_eq_of_lt (by omega)]
  omega

theorem ceil_div_small (n s : Nat) (h0 : 0 < n) (h1 : n < s) :
    (n + s - 1) / s = 1 := by
  apply Nat.div_eq_of_lt_le <;> omega

theorem flatten_chunks {α : Type} (s : Nat) (tokens : List α) :
    ∀ m : Nat, m * s ≤ tokens.length →
      ((List.range m).map
        (fun j => (tokens.drop (j * s)).take s)).flatten =
        tokens.take (m * s) := by
  intro m
  induction m with
  | zero => intro _; simp
  | succ m ih =>
    intro h
    have hm : m * s ≤ tokens.length :=
      le_trans (Nat.mul_le_mul_right s (Nat.le_succ m)) h
    rw [List.range_succ, List.map_append, List.flatten_append, ih hm]
    simp only [List.map_cons, List.map_nil, List.flatten_cons,
      List.flatten_nil, List.append_nil]
    rw [Nat.succ_mul, List.take_add]

/-- C10 counterexample: an empty concatenated token stream has total length
0, which is below the sequence length, yet the `concat` branch returns no
chunk at all instead of a single chunk. -/
theorem C10_concat_counterexample :
    List.length ([] : List Nat) < 4 ∧
    (tokenize_concat 4 ([] : List Nat)).length ≠ 1 :=
  ⟨by decide, by decide⟩

/-- C10 (amended): in `concat` mode with a positive sequence length, when
the concatenated token count is at least `seq_length` every returned chunk
is exactly `seq_length` tokens long and the chunks together are the input
truncated to the largest multiple of `seq_length`; when the count is below
`seq_length` but nonzero, a single chunk shorter than `seq_length` (the
whole stream) is returned; when the count is zero, no chunk is returned. -/
theorem C10_concat_chunking {α : Type} (seq_len : Nat) (tokens : List α)
    (hs : 0 < seq_len) :
    (seq_len ≤ tokens.length →
      (∀ ch ∈ tokenize_concat seq_len tokens, ch.length = seq_len) ∧
      (tokenize_concat seq_len tokens).length =
        tokens.length / seq_len ∧
      (tokenize_concat seq_len tokens).flatten =
        tokens.take (tokens.length / seq_len * seq_len)) ∧
    (0 < tokens.length → tokens.length < seq_len →
      tokenize_concat seq_len tokens = [tokens]) ∧
    (tokens.length = 0 → tokenize_concat seq_len tokens = []) := by
  refine ⟨?_, ?_, ?_⟩
  · intro hlen
    have htc : tokenize_concat seq_len tokens =
        (List.range (tokens.length / seq_len)).map
          (fun j => (tokens.drop (j * seq_len)).take seq_len) := by
      simp only [tokenize_concat]
      rw [if_pos hlen, rangeStep_eq _ _ hs, ceil_div_mul _ _ hs,
        List.map_map]
      rfl
    have hms : tokens.length / seq_len * seq_len ≤ tokens.length :=
      Nat.div_mul_le_self tokens.length seq_len
    refine ⟨?_, ?_, ?_⟩
    · intro ch hch
      rw [htc] at hch
      obtain ⟨j, hj, hche⟩ := List.mem_map.mp hch
      have hjm : j < tokens.length / seq_len := List.mem_range.mp hj
      have hj1 : j * seq_len + seq_len ≤
          tokens.length / seq_len * seq_len := by
        rw [← Nat.succ_mul]
        exact Nat.mul_le_mul_right seq_len hjm
      rw [← hche]
      simp only [List.length_take, List.length_drop]
      omega
    · rw [htc]
      simp
    · rw [htc]
      exact flatten_chunks seq_len tokens (tokens.length / seq_len) hms
  · intro h0 h1
    have hnge : ¬ tokens.length ≥ seq_len := Nat.not_le.mpr h1
    simp only [tokenize_concat]
    rw [if_neg hnge, rangeStep_eq _ _ hs, ceil_div_small _ _ h0 h1]
    simp [List.range_succ, List.take_of_length_le (le_of_lt h1)]
  · intro h0
    have hnge : ¬ tokens.length ≥ seq_len := by omega
    simp only [tokenize_concat]
    rw [if_neg hnge, rangeStep_eq _ _ hs, h0]
    simp only [Nat.zero_add]
    rw [Nat.div_eq_of_lt (by omega)]
    rfl

/-- C10 witness: with sequence length 2 over five tokens, two chunks of
length 2 are produced and the fifth token is discarded; a single token with
sequence length 3 yields one short chunk. -/
theorem C10_concat_chunking_witness :
    (tokenize_concat 2 ([1, 2, 3, 4, 5] : List Nat)).length = 2 ∧
    (tokenize_concat 2 ([1, 2, 3, 4, 5] : List Nat)).flatten =
      [1, 2, 3, 4] ∧
    tokenize_concat 3 ([1] : List Nat) = [[1]] := by
  have h1 := C10_concat_chunking 2 ([1, 2, 3, 4, 5] : List Nat) (by decide)
  have h2 := C10_concat_chunking 3 ([1] : List Nat) (by decide)
  exact ⟨(h1.1 (by decide)).2.1, (h1.1 (by decide)).2.2,
    h2.2.1 (by decide) (by decide)⟩

end ZeroGPT2
